import Mathlib

/-!
Shallow embedding of the instascan scan scheduling and activation engine
from src/scanner.js: the ScanProvider sampling loop with its throttle
counter and duplicate suppression, the manual scan operation, and the
Scanner activation state machine with its entry and exit actions.

Times and counters are natural numbers. The Analyzer, the camera and the
page visibility source are external collaborators and enter as oracle
inputs. The pending refractory setTimeout is modelled by the absolute
time at which it fires; a driver fires any due timeout before a tick.
-/

/-- One successful Analyzer outcome: the decoded string and the canvas
holding the frame. The canvas is abstracted to the string its snapshot
would encode. -/
structure Analysis where
  result : String
  canvas : String
deriving DecidableEq, Repr

/-- The payload built by ScanProvider from a detection: the content plus
the optional snapshot image. -/
structure Payload where
  content : String
  image : Option String
deriving DecidableEq, Repr

/-- Models canvas.toDataURL on the abstracted canvas. -/
def toDataURL (canvas : String) : String := "data:image/webp;base64," ++ canvas

/-- State of one ScanProvider instance. refractoryDeadline models the
pending setTimeout that will clear lastResult: it holds the absolute time
at which that timeout fires, or none when no timeout is pending. -/
structure ProviderState where
  scanPeriod : Nat
  captureImage : Bool
  refractoryPeriod : Nat
  frameCount : Nat
  lastResult : Option String
  active : Bool
  refractoryDeadline : Option Nat
deriving DecidableEq, Repr

/-- The ScanProvider together with the number of currently scheduled
requestAnimationFrame loop callbacks: ScanProvider.start requests a new
animation frame each time it is called, so several independent loop
callbacks can be pending at once over the same shared state. -/
structure SchedState where
  prov : ProviderState
  loops : Nat
deriving DecidableEq, Repr

namespace ScanProvider

/-- ScanProvider constructor state: counters zero, no last result, no
pending refractory timeout, loop not running. -/
def mkProvider (scanPeriod : Nat) (captureImage : Bool) (refractoryPeriod : Nat) :
    ProviderState :=
  { scanPeriod := scanPeriod, captureImage := captureImage,
    refractoryPeriod := refractoryPeriod, frameCount := 0, lastResult := none,
    active := false, refractoryDeadline := none }

/-- ScanProvider._analyze: ask the Analyzer for a result; bail out when
there is none or the decoded string is empty (JS falsiness of the empty
string); when skipDups holds, suppress a result equal to lastResult
before anything else; otherwise restart the refractory timeout, record
the result as lastResult, optionally attach a snapshot and return the
payload. -/
def _analyze (st : ProviderState) (skipDups : Bool) (analysis : Option Analysis)
    (now : Nat) : Option Payload × ProviderState :=
  match analysis with
  | none => (none, st)
  | some a =>
    if a.result = "" then (none, st)
    else if skipDups ∧ some a.result = st.lastResult then (none, st)
    else
      let st1 := { st with refractoryDeadline := some (now + st.refractoryPeriod) }
      let image := if st1.captureImage then some (toDataURL a.canvas) else none
      let st2 := { st1 with lastResult := some a.result }
      (some { content := a.result, image := image }, st2)

/-- ScanProvider.scan: the manual single-shot sample, which is
_analyze with skipDups set to false; the payload is returned to the
caller instead of being emitted as an event. -/
def scan (st : ProviderState) (analysis : Option Analysis) (now : Nat) :
    Option Payload × ProviderState :=
  _analyze st false analysis now

/-- One invocation of the ScanProvider._scan loop callback: when active,
reschedule, advance the frame counter and, once it reaches scanPeriod,
reset it and run the dedupe-aware analysis; the third component records
whether the callback rescheduled itself. -/
def _scan (st : ProviderState) (analysis : Option Analysis) (now : Nat) :
    Option Payload × ProviderState × Bool :=
  if st.active then
    let st1 := { st with frameCount := st.frameCount + 1 }
    if st1.frameCount ≠ st1.scanPeriod then (none, st1, true)
    else
      let st2 := { st1 with frameCount := 0 }
      let r := _analyze st2 true analysis now
      (r.1, r.2, true)
  else (none, st, false)

/-- ScanProvider.start: set the running flag and request one more
animation frame for the loop callback, unconditionally. -/
def start (s : SchedState) : SchedState :=
  { s with prov := { s.prov with active := true }, loops := s.loops + 1 }

/-- ScanProvider.stop: clear the running flag; nothing else changes. -/
def stop (s : SchedState) : SchedState :=
  { s with prov := { s.prov with active := false } }

end ScanProvider

/-- Fire the pending refractory timeout when its deadline has been
reached: the timeout callback clears lastResult. -/
def fireDueTimer (st : ProviderState) (now : Nat) : ProviderState :=
  match st.refractoryDeadline with
  | some d =>
      if d ≤ now then { st with lastResult := none, refractoryDeadline := none }
      else st
  | none => st

/-- One loop tick as driven by the host: its timestamp and what the
Analyzer returns on that tick. -/
structure Tick where
  time : Nat
  analysis : Option Analysis
deriving DecidableEq, Repr

/-- One animation-frame tick of a single loop callback: fire any due
refractory timeout, then run the loop body. -/
def tickStep (st : ProviderState) (t : Tick) : Option Payload × ProviderState :=
  let r := ScanProvider._scan (fireDueTimer st t.time) t.analysis t.time
  (r.1, r.2.1)

/-- Run a single-callback sampling loop over a list of ticks, recording
per tick the payload whose scan event that tick emits, if any. -/
def runTicksTrace : ProviderState → List Tick → ProviderState × List (Option Payload)
  | st, [] => (st, [])
  | st, t :: ts =>
    let r := tickStep st t
    let rest := runTicksTrace r.2 ts
    (rest.1, r.1 :: rest.2)

/-- The scan events emitted over a run, in order. -/
def scanEvents (st : ProviderState) (ts : List Tick) : List Payload :=
  (runTicksTrace st ts).2.filterMap id

/-- A freshly constructed provider whose loop is running: the state after
the constructor followed by one start call. -/
def startedProvider (scanPeriod : Nat) (captureImage : Bool) (refractoryPeriod : Nat) :
    ProviderState :=
  { ScanProvider.mkProvider scanPeriod captureImage refractoryPeriod with active := true }

/-- Run every scheduled loop callback once over the shared provider
state, as one animation frame does; returns the state, the number of
callbacks scheduled for the next frame and the payloads emitted. -/
def runLoopCallbacks : ProviderState → Option Analysis → Nat → Nat →
    ProviderState × Nat × List Payload
  | st, _, _, 0 => (st, 0, [])
  | st, a, now, n + 1 =>
    let r := ScanProvider._scan st a now
    let rest := runLoopCallbacks r.2.1 a now n
    (rest.1, (if r.2.2 then 1 else 0) + rest.2.1, r.1.toList ++ rest.2.2)

/-- One animation frame over a scheduler: fire any due refractory
timeout, then run every scheduled loop callback once. -/
def runFrame (s : SchedState) (t : Tick) : SchedState × List Payload :=
  let st := fireDueTimer s.prov t.time
  let r := runLoopCallbacks st t.analysis t.time s.loops
  (⟨r.1, r.2.1⟩, r.2.2)

/-- Run a sequence of animation frames, recording per frame the list of
payloads emitted during that frame. -/
def runFramesTrace : SchedState → List Tick → SchedState × List (List Payload)
  | s, [] => (s, [])
  | s, t :: ts =>
    let r := runFrame s t
    let rest := runFramesTrace r.1 ts
    (rest.1, r.2 :: rest.2)

/-- A freshly constructed scheduler: provider state from the constructor,
loop not running, no callback scheduled. -/
def freshSched (scanPeriod : Nat) (captureImage : Bool) (refractoryPeriod : Nat) :
    SchedState :=
  { prov := ScanProvider.mkProvider scanPeriod captureImage refractoryPeriod,
    loops := 0 }

/-- The four states of the activation state machine. -/
inductive FsmState
  | stopped
  | started
  | active
  | inactive
deriving DecidableEq, Repr

/-- An opaque camera handle. -/
structure Camera where
  id : Nat
deriving DecidableEq, Repr

/-- Scanner state: the machine state, the recorded camera, the option
flags, the owned ScanProvider, whether the capture device stream is
acquired, and the ordered list of scanner events emitted so far. -/
structure ScannerState where
  fsm : FsmState
  camera : Option Camera
  continuous : Bool
  backgroundScan : Bool
  provider : SchedState
  deviceOn : Bool
  events : List String
deriving DecidableEq, Repr

/-- The to-state resolver of the activate transition. The source guard
reads Visibility.state() and then this.backgroundScan inside a plain
function callback, so contextBackgroundScan is the backgroundScan field
of whatever object the state-machine library binds as the callback
context; a missing field reads as undefined, hence the Option with JS
truthiness. -/
def activateCondition (visibilityState : String) (contextBackgroundScan : Option Bool) :
    FsmState :=
  if visibilityState = "visible" ∨ contextBackgroundScan.getD false = true then
    FsmState.active
  else FsmState.inactive

/-- The callback context of the condition is the state machine object
built by StateMachine.create, not the Scanner: the machine carries no
backgroundScan field, so the lookup yields undefined. The Scanner keeps
its backgroundScan flag on itself (ScannerState.backgroundScan). -/
def fsmBackgroundScanField : Option Bool := none

namespace Scanner

/-- Scanner._enableScan: record the camera argument when given (keeping
the previous one otherwise); throw when no camera is recorded; otherwise
acquire the stream and, in continuous mode, start the ScanProvider. The
second component is the propagated error message, if any. -/
def _enableScan (cam : Option Camera) (s : ScannerState) : ScannerState × Option String :=
  let s1 := { s with camera := match cam with | some c => some c | none => s.camera }
  match s1.camera with
  | none => (s1, some "Camera is not defined.")
  | some _ =>
    let s2 := { s1 with deviceOn := true }
    (if s2.continuous then { s2 with provider := ScanProvider.start s2.provider }
     else s2, none)

/-- Scanner._disableScan: stop the ScanProvider and, when a camera is
recorded, stop it, releasing the device. -/
def _disableScan (s : ScannerState) : ScannerState :=
  let s1 := { s with provider := ScanProvider.stop s.provider }
  if s1.camera.isSome then { s1 with deviceOn := false } else s1

/-- The onleaveactive callback: disable scanning and emit the inactive
event. -/
def onLeaveActive (s : ScannerState) : ScannerState :=
  let s1 := _disableScan s
  { s1 with events := s1.events ++ ["inactive"] }

/-- The activate transition, legal from started and inactive: resolve the
to-state with the condition callback; on active, run the onenteractive
callback (_enableScan then emit active); a failing entry action cancels
the transition, leaving the machine in its from-state and propagating the
error. Entering inactive runs no callback. -/
def fsmActivate (vis : String) (cam : Option Camera) (s : ScannerState) :
    ScannerState × Option String :=
  if s.fsm = FsmState.started ∨ s.fsm = FsmState.inactive then
    match activateCondition vis fsmBackgroundScanField with
    | FsmState.active =>
      match _enableScan cam s with
      | (_, some e) => (s, some e)
      | (s1, none) =>
        ({ s1 with fsm := FsmState.active, events := s1.events ++ ["active"] }, none)
    | _ => ({ s with fsm := FsmState.inactive }, none)
  else (s, some "invalid transition")

/-- The start transition, legal from stopped: enter started, then the
onenteredstarted callback chains an awaited activate with the camera
argument; the machine is already in started when activate runs, so an
activate failure leaves it there. -/
def fsmStartTrans (vis : String) (cam : Option Camera) (s : ScannerState) :
    ScannerState × Option String :=
  if s.fsm = FsmState.stopped then
    fsmActivate vis cam { s with fsm := FsmState.started }
  else (s, some "invalid transition")

/-- The stop transition, legal from started, active and inactive: when
leaving active, run the onleaveactive callback; then enter stopped. -/
def fsmStopTrans (s : ScannerState) : ScannerState × Option String :=
  if s.fsm = FsmState.started ∨ s.fsm = FsmState.active ∨ s.fsm = FsmState.inactive then
    let s1 := if s.fsm = FsmState.active then onLeaveActive s else s
    ({ s1 with fsm := FsmState.stopped }, none)
  else (s, some "invalid transition")

/-- The deactivate transition, legal from started and active: when
leaving active, run the onleaveactive callback; then enter inactive. -/
def fsmDeactivateTrans (s : ScannerState) : ScannerState × Option String :=
  if s.fsm = FsmState.started ∨ s.fsm = FsmState.active then
    let s1 := if s.fsm = FsmState.active then onLeaveActive s else s
    ({ s1 with fsm := FsmState.inactive }, none)
  else (s, some "invalid transition")

/-- Scanner.start: if the machine can legally start (state stopped), do
so; otherwise await a stop transition and then a fresh start transition. -/
def start (vis : String) (cam : Option Camera) (s : ScannerState) :
    ScannerState × Option String :=
  if s.fsm = FsmState.stopped then fsmStartTrans vis cam s
  else
    match fsmStopTrans s with
    | (s1, some e) => (s1, some e)
    | (s1, none) => fsmStartTrans vis cam s1

/-- Scanner.stop: issue the stop transition only when it is legal. -/
def stop (s : ScannerState) : ScannerState × Option String :=
  if s.fsm = FsmState.stopped then (s, none) else fsmStopTrans s

/-- The continuous setter: record the flag; start the ScanProvider when
the flag is set while the machine is active, stop it in every other
case. -/
def setContinuous (c : Bool) (s : ScannerState) : ScannerState :=
  let s1 := { s with continuous := c }
  if c ∧ s1.fsm = FsmState.active then
    { s1 with provider := ScanProvider.start s1.provider }
  else { s1 with provider := ScanProvider.stop s1.provider }

end Scanner

/-- Scanner constructor state: machine in stopped, no camera recorded, a
fresh ScanProvider, device off, and one inactive event already emitted at
construction. -/
def mkScanner (continuous backgroundScan captureImage : Bool)
    (scanPeriod refractoryPeriod : Nat) : ScannerState :=
  { fsm := FsmState.stopped, camera := none, continuous := continuous,
    backgroundScan := backgroundScan,
    provider := freshSched scanPeriod captureImage refractoryPeriod,
    deviceOn := false, events := ["inactive"] }

/-! ## Basic run lemmas -/

lemma runTicksTrace_cons (st : ProviderState) (t : Tick) (ts : List Tick) :
    runTicksTrace st (t :: ts) =
      ((runTicksTrace (tickStep st t).2 ts).1,
       (tickStep st t).1 :: (runTicksTrace (tickStep st t).2 ts).2) := rfl

lemma runTicksTrace_append (st : ProviderState) (xs ys : List Tick) :
    runTicksTrace st (xs ++ ys) =
      ((runTicksTrace (runTicksTrace st xs).1 ys).1,
       (runTicksTrace st xs).2 ++ (runTicksTrace (runTicksTrace st xs).1 ys).2) := by
  induction xs generalizing st with
  | nil => simp [runTicksTrace]
  | cons t ts ih => simp [runTicksTrace_cons, ih]

lemma filterMap_id_map_none {α β : Type} (l : List α) :
    (l.map fun _ => (none : Option β)).filterMap id = [] := by
  induction l with
  | nil => rfl
  | cons x xs ih => simp [ih]

lemma filterMap_fun_none {α β : Type} (l : List α) :
    l.filterMap (fun _ => (none : Option β)) = [] := by
  induction l with
  | nil => rfl
  | cons x xs ih => simp [List.filterMap_cons, ih]

lemma filterMap_comp_none {α β γ : Type} (f : α → γ) (l : List α) :
    l.filterMap ((fun _ => (none : Option β)) ∘ f) = [] := by
  induction l with
  | nil => rfl
  | cons x xs ih => simp [List.filterMap_cons, ih]

/-- While the frame counter stays below scanPeriod, ticks are throttled:
no analysis is attempted, no event is emitted, only the counter moves. -/
lemma throttle_phase (p r : Nat) (ci : Bool) (ts : List Tick) (fc : Nat)
    (h : fc + ts.length < p) :
    runTicksTrace ⟨p, ci, r, fc, none, true, none⟩ ts =
      (⟨p, ci, r, fc + ts.length, none, true, none⟩,
       ts.map fun _ => (none : Option Payload)) := by
  induction ts generalizing fc with
  | nil => simp [runTicksTrace]
  | cons t ts ih =>
    have hne : fc + 1 ≠ p := by
      simp only [List.length_cons] at h
      omega
    have hstep : tickStep ⟨p, ci, r, fc, none, true, none⟩ t =
        (none, ⟨p, ci, r, fc + 1, none, true, none⟩) := by
      simp [tickStep, fireDueTimer, ScanProvider._scan, hne]
    have hlen : fc + 1 + ts.length < p := by
      simp only [List.length_cons] at h
      omega
    have harith : fc + 1 + ts.length = fc + (t :: ts).length := by
      simp only [List.length_cons]
      omega
    rw [runTicksTrace_cons, hstep]
    simp only [ih (fc + 1) hlen, harith, List.map_cons]

/-- The tick on which the frame counter reaches scanPeriod analyzes the
frame: a fresh non-duplicate result restarts the refractory timeout,
records lastResult and emits the payload. -/
lemma first_emission (p r : Nat) (ci : Bool) (c canvas : String) (t0 : Nat)
    (hc : c ≠ "") (hp : 1 ≤ p) :
    tickStep ⟨p, ci, r, p - 1, none, true, none⟩ ⟨t0, some ⟨c, canvas⟩⟩ =
      (some ⟨c, if ci then some (toDataURL canvas) else none⟩,
       ⟨p, ci, r, 0, some c, true, some (t0 + r)⟩) := by
  have hfc : p - 1 + 1 = p := by omega
  simp [tickStep, fireDueTimer, ScanProvider._scan, ScanProvider._analyze, hfc, hc]

/-- While lastResult holds c and the pending refractory timeout has not
yet fired, every tick whose analysis again yields c is suppressed: no
event is emitted, lastResult is kept and the timeout is not restarted. -/
lemma suppress_phase (p r d : Nat) (ci : Bool) (c : String) (ts : List Tick) (fc : Nat)
    (hts : ∀ t ∈ ts, t.time < d ∧ ∃ cv, t.analysis = some ⟨c, cv⟩) :
    ∃ fc2, runTicksTrace ⟨p, ci, r, fc, some c, true, some d⟩ ts =
      (⟨p, ci, r, fc2, some c, true, some d⟩,
       ts.map fun _ => (none : Option Payload)) := by
  induction ts generalizing fc with
  | nil => exact ⟨fc, rfl⟩
  | cons t ts ih =>
    obtain ⟨ht, cv, ha⟩ := hts t (List.mem_cons_self t ts)
    have hfire : fireDueTimer ⟨p, ci, r, fc, some c, true, some d⟩ t.time =
        ⟨p, ci, r, fc, some c, true, some d⟩ := by
      have : ¬ d ≤ t.time := by omega
      simp [fireDueTimer, this]
    have hstep : ∃ fc1, tickStep ⟨p, ci, r, fc, some c, true, some d⟩ t =
        (none, ⟨p, ci, r, fc1, some c, true, some d⟩) := by
      by_cases hfc : fc + 1 = p
      · refine ⟨0, ?_⟩
        simp only [tickStep, hfire]
        by_cases hc0 : c = ""
        · subst hc0
          simp [ScanProvider._scan, ScanProvider._analyze, ha, hfc]
        · simp [ScanProvider._scan, ScanProvider._analyze, ha, hfc, hc0]
      · refine ⟨fc + 1, ?_⟩
        simp only [tickStep, hfire]
        simp [ScanProvider._scan, ScanProvider._analyze, ha, hfc]
    obtain ⟨fc1, hstep⟩ := hstep
    obtain ⟨fc2, hrest⟩ := ih fc1 (fun u hu => hts u (List.mem_cons_of_mem t hu))
    refine ⟨fc2, ?_⟩
    rw [runTicksTrace_cons, hstep]
    simp [hrest]

/-- C1 (Dedup exactly-once): run a freshly started loop on ticks whose
analysis always yields the same content c. The first emission happens on
the tick where the frame counter first reaches scanPeriod; when every
later tick happens before the refractory timeout set at that emission
fires, exactly one scan event is produced over the whole run, and the
suppressed duplicate ticks neither clear lastResult nor restart the
refractory timeout (the final deadline is still the one set at the
emission). -/
theorem dedup_exactly_once (p r : Nat) (ci : Bool) (c canvas : String)
    (pre : List Nat) (t0 : Nat) (post : List Nat)
    (hc : c ≠ "") (hp : 1 ≤ p) (hpre : pre.length = p - 1)
    (hpost : ∀ t ∈ post, t < t0 + r) :
    scanEvents (startedProvider p ci r)
        ((pre ++ t0 :: post).map fun t => ⟨t, some ⟨c, canvas⟩⟩) =
      [⟨c, if ci then some (toDataURL canvas) else none⟩] ∧
    (runTicksTrace (startedProvider p ci r)
        ((pre ++ t0 :: post).map fun t => ⟨t, some ⟨c, canvas⟩⟩)).1.lastResult = some c ∧
    (runTicksTrace (startedProvider p ci r)
        ((pre ++ t0 :: post).map fun t => ⟨t, some ⟨c, canvas⟩⟩)).1.refractoryDeadline =
      some (t0 + r) := by
  have h0 : (0 : Nat) + (pre.map fun t => (⟨t, some ⟨c, canvas⟩⟩ : Tick)).length < p := by
    simp [hpre]
    omega
  have h1 := throttle_phase p r ci (pre.map fun t => ⟨t, some ⟨c, canvas⟩⟩) 0 h0
  have hpl : (0 : Nat) + (pre.map fun t => (⟨t, some ⟨c, canvas⟩⟩ : Tick)).length = p - 1 := by
    simp [hpre]
  rw [hpl] at h1
  have h2 := first_emission p r ci c canvas t0 hc hp
  have hts : ∀ u ∈ (post.map fun t => (⟨t, some ⟨c, canvas⟩⟩ : Tick)),
      u.time < t0 + r ∧ ∃ cv, u.analysis = some ⟨c, cv⟩ := by
    intro u hu
    rw [List.mem_map] at hu
    obtain ⟨t, htl, rfl⟩ := hu
    exact ⟨hpost t htl, canvas, rfl⟩
  obtain ⟨fc2, h3⟩ := suppress_phase p r (t0 + r) ci c
    (post.map fun t => ⟨t, some ⟨c, canvas⟩⟩) 0 hts
  have hmap : ((pre ++ t0 :: post).map fun t => (⟨t, some ⟨c, canvas⟩⟩ : Tick)) =
      (pre.map fun t => ⟨t, some ⟨c, canvas⟩⟩) ++
        (⟨t0, some ⟨c, canvas⟩⟩ :: post.map fun t => ⟨t, some ⟨c, canvas⟩⟩) := by
    simp
  have hsp : startedProvider p ci r = ⟨p, ci, r, 0, none, true, none⟩ := rfl
  have hrun : runTicksTrace (startedProvider p ci r)
      ((pre ++ t0 :: post).map fun t => ⟨t, some ⟨c, canvas⟩⟩) =
      (⟨p, ci, r, fc2, some c, true, some (t0 + r)⟩,
       ((pre.map fun t => (⟨t, some ⟨c, canvas⟩⟩ : Tick)).map fun _ => (none : Option Payload)) ++
         (some ⟨c, if ci then some (toDataURL canvas) else none⟩ ::
          ((post.map fun t => (⟨t, some ⟨c, canvas⟩⟩ : Tick)).map fun _ => (none : Option Payload)))) := by
    rw [hmap, runTicksTrace_append, hsp, h1]
    dsimp only
    rw [runTicksTrace_cons, h2]
    dsimp only
    rw [h3]
  refine ⟨?_, ?_, ?_⟩
  · simp only [scanEvents]
    rw [hrun]
    simp [List.filterMap_append, filterMap_comp_none]
  · rw [hrun]
  · rw [hrun]

/-- Witness for dedup_exactly_once: period 2, refractory 100, ticks at
times 0, 5, 6, 7 all decoding Q; exactly one event. -/
theorem dedup_exactly_once_witness :
    scanEvents (startedProvider 2 false 100)
        (([0] ++ 5 :: [6, 7]).map fun t => ⟨t, some ⟨"Q", "K"⟩⟩) =
      [⟨"Q", none⟩] ∧
    (runTicksTrace (startedProvider 2 false 100)
        (([0] ++ 5 :: [6, 7]).map fun t => ⟨t, some ⟨"Q", "K"⟩⟩)).1.lastResult = some "Q" ∧
    (runTicksTrace (startedProvider 2 false 100)
        (([0] ++ 5 :: [6, 7]).map fun t => ⟨t, some ⟨"Q", "K"⟩⟩)).1.refractoryDeadline =
      some (5 + 100) :=
  dedup_exactly_once 2 100 false "Q" "K" [0] 5 [6, 7] (by decide) (by decide) (by decide)
    (by decide)

/-- The Scenario A input: samplingInterval 3, snapshot capture off,
default refractory duration 5000, the Analyzer decoding ABC on every
tick, ticks at the display cadence of 16 ms. -/
def scenarioATicks : List Tick :=
  [⟨0, some ⟨"ABC", "CV"⟩⟩, ⟨16, some ⟨"ABC", "CV"⟩⟩, ⟨32, some ⟨"ABC", "CV"⟩⟩,
   ⟨48, some ⟨"ABC", "CV"⟩⟩, ⟨64, some ⟨"ABC", "CV"⟩⟩, ⟨80, some ⟨"ABC", "CV"⟩⟩]

/-- C2 counterexample: on the Scenario A run the 6th tick emits no scan
event — the claimed second emission on tick 6 does not happen, because
ABC is still suppressed as a duplicate inside the refractory window set
on tick 3. -/
theorem scenarioA_tick6_no_event :
    (runTicksTrace (startedProvider 3 false 5000) scenarioATicks).2.getD 5 none ≠
      some ⟨"ABC", none⟩ := by decide

/-- C2 amended: the Scenario A run emits exactly one scan event, ABC with
no snapshot on the 3rd tick, and no event on ticks 1, 2, 4, 5 and 6. -/
theorem scenarioA_trace :
    (runTicksTrace (startedProvider 3 false 5000) scenarioATicks).2 =
      [none, none, some ⟨"ABC", none⟩, none, none, none] := by decide

/-- C3 counterexample: a manual scan on a provider with no lastResult and
no pending refractory timeout leaves both mutated — the detected content
is stored into lastResult and a refractory timeout is started. -/
theorem manual_scan_mutates_dedup :
    ¬ ((ScanProvider.scan (startedProvider 1 false 5000) (some ⟨"Q", "K"⟩) 7).2.lastResult =
         (startedProvider 1 false 5000).lastResult ∧
       (ScanProvider.scan (startedProvider 1 false 5000)
           (some ⟨"Q", "K"⟩) 7).2.refractoryDeadline =
         (startedProvider 1 false 5000).refractoryDeadline) := by decide

/-- C3 amended: the manual scan runs the Analyzer at once without
consulting the frame counter (the returned payload does not depend on the
frame counter nor on lastResult, whose duplicate check it bypasses) and
returns the payload synchronously, leaving frame counter and running flag
untouched; but on a successful detection it does write the dedup state:
lastResult is set to the detected content and the refractory timeout is
restarted. -/
theorem manual_scan_bypass (st : ProviderState) (res cv : String) (now fc : Nat)
    (lr : Option String) (hr : res ≠ "") :
    (ScanProvider.scan st (some ⟨res, cv⟩) now).2.frameCount = st.frameCount ∧
    (ScanProvider.scan st (some ⟨res, cv⟩) now).2.active = st.active ∧
    (ScanProvider.scan { st with frameCount := fc, lastResult := lr }
        (some ⟨res, cv⟩) now).1 =
      (ScanProvider.scan st (some ⟨res, cv⟩) now).1 ∧
    (ScanProvider.scan st (some ⟨res, cv⟩) now).2.lastResult = some res ∧
    (ScanProvider.scan st (some ⟨res, cv⟩) now).2.refractoryDeadline =
      some (now + st.refractoryPeriod) := by
  simp [ScanProvider.scan, ScanProvider._analyze, hr]

/-- Witness for manual_scan_bypass at a concrete provider state. -/
theorem manual_scan_bypass_witness :
    (ScanProvider.scan (startedProvider 2 true 50) (some ⟨"W", "CV"⟩) 9).2.frameCount =
      (startedProvider 2 true 50).frameCount ∧
    (ScanProvider.scan (startedProvider 2 true 50) (some ⟨"W", "CV"⟩) 9).2.active =
      (startedProvider 2 true 50).active ∧
    (ScanProvider.scan { startedProvider 2 true 50 with frameCount := 1, lastResult := some "Z" }
        (some ⟨"W", "CV"⟩) 9).1 =
      (ScanProvider.scan (startedProvider 2 true 50) (some ⟨"W", "CV"⟩) 9).1 ∧
    (ScanProvider.scan (startedProvider 2 true 50) (some ⟨"W", "CV"⟩) 9).2.lastResult =
      some "W" ∧
    (ScanProvider.scan (startedProvider 2 true 50) (some ⟨"W", "CV"⟩) 9).2.refractoryDeadline =
      some (9 + (startedProvider 2 true 50).refractoryPeriod) :=
  manual_scan_bypass (startedProvider 2 true 50) "W" "CV" 9 1 (some "Z") (by decide)

/-- C4: the activate guard evaluated at the failing input — page hidden
while the Scanner option backgroundScan is enabled. The condition answers
inactive, because the backgroundScan disjunct reads the missing field of
the state-machine callback context (fsmBackgroundScanField), not the
Scanner flag; had it read the Scanner flag, it would answer active. -/
theorem activate_guard_ignores_backgroundScan :
    activateCondition "hidden" fsmBackgroundScanField = FsmState.inactive ∧
    (mkScanner true true false 1 5000).backgroundScan = true ∧
    activateCondition "hidden" (some (mkScanner true true false 1 5000).backgroundScan) =
      FsmState.active := by decide

/-- C5 counterexample: starting with no camera argument and none recorded
leaves the machine in started, not stopped — the stopped-to-started
transition completes before the chained activate fails. -/
theorem start_no_camera_not_stopped :
    ¬ ((Scanner.start "visible" none (mkScanner true true false 1 5000)).1.fsm =
         FsmState.stopped) := by decide

/-- C5 amended: calling start with no camera argument while none is
recorded fails with the configuration error, propagated to the caller;
the capture device is never acquired and nothing but the machine state
changes — but the machine ends in started, not stopped. -/
theorem start_no_camera (s : ScannerState) (h1 : s.fsm = FsmState.stopped)
    (h2 : s.camera = none) :
    Scanner.start "visible" none s =
      ({ s with fsm := FsmState.started }, some "Camera is not defined.") := by
  simp [Scanner.start, Scanner.fsmStartTrans, Scanner.fsmActivate, Scanner._enableScan,
    activateCondition, fsmBackgroundScanField, h1, h2]

/-- Witness for start_no_camera at the freshly constructed scanner. -/
theorem start_no_camera_witness :
    Scanner.start "visible" none (mkScanner true true false 1 5000) =
      ({ mkScanner true true false 1 5000 with fsm := FsmState.started },
       some "Camera is not defined.") :=
  start_no_camera (mkScanner true true false 1 5000) (by decide) (by decide)

/-- Two animation frames on which the Analyzer decodes A each time. -/
def c6ticks : List Tick := [⟨0, some ⟨"A", "K"⟩⟩, ⟨1, some ⟨"A", "K"⟩⟩]

/-- C6 counterexample: with scanPeriod 2, calling start twice is not a
no-op — two loop callbacks run per frame, so the frame counter reaches
the period already on the first frame and the whole observable run
differs from the run after a single start. -/
theorem double_start_not_noop :
    ¬ (runFramesTrace (ScanProvider.start (ScanProvider.start (freshSched 2 false 5000)))
         c6ticks =
       runFramesTrace (ScanProvider.start (freshSched 2 false 5000)) c6ticks) := by decide

/-- C6 amended: stop is idempotent and, when the loop is not running, a
complete no-op; it touches nothing but the running flag. start, however,
is not a no-op when already running: every call schedules one more loop
callback, so two starts leave two concurrent loops scheduled. -/
theorem start_stop_schedule (s : SchedState) :
    ScanProvider.stop (ScanProvider.stop s) = ScanProvider.stop s ∧
    ScanProvider.stop { s with prov := { s.prov with active := false } } =
      { s with prov := { s.prov with active := false } } ∧
    (ScanProvider.stop s).loops = s.loops ∧
    (ScanProvider.stop s).prov.frameCount = s.prov.frameCount ∧
    (ScanProvider.stop s).prov.lastResult = s.prov.lastResult ∧
    (ScanProvider.stop s).prov.refractoryDeadline = s.prov.refractoryDeadline ∧
    (ScanProvider.start s).loops = s.loops + 1 ∧
    (ScanProvider.start (ScanProvider.start s)).loops = s.loops + 2 := by
  simp [ScanProvider.start, ScanProvider.stop]

/-- C7 counterexample: start with a camera (reaching active), then stop.
The run never enters the inactive state, so the claim predicts exactly
one inactive emission (the construction-time one); but leaving active on
stop emits a second one. -/
theorem stop_from_active_emits_inactive :
    ¬ ((Scanner.stop
          (Scanner.start "visible" (some ⟨1⟩)
            (mkScanner true true false 1 5000)).1).1.events.count "inactive" = 1) := by
  decide

/-- C7 amended: the inactive event is emitted once at construction and
once per transition that leaves the active state — stop and deactivate
emit it exactly when taken from active; activate resolving to inactive
enters the inactive state emitting nothing and changing nothing else. -/
theorem inactive_per_leave_active (s : ScannerState) (cam : Option Camera)
    (cont bg ci : Bool) (sp rp : Nat) :
    (Scanner.fsmStopTrans s).1.events =
      s.events ++ (if s.fsm = FsmState.active then ["inactive"] else []) ∧
    (Scanner.fsmDeactivateTrans s).1.events =
      s.events ++ (if s.fsm = FsmState.active then ["inactive"] else []) ∧
    (Scanner.fsmActivate "hidden" cam { s with fsm := FsmState.started }).1 =
      { s with fsm := FsmState.inactive } ∧
    (mkScanner cont bg ci sp rp).events = ["inactive"] := by
  obtain ⟨f, cam0, c0, b0, pr, d0, ev⟩ := s
  refine ⟨?_, ?_, ?_, rfl⟩
  · cases f <;> cases cam0 <;>
      simp [Scanner.fsmStopTrans, Scanner.onLeaveActive, Scanner._disableScan]
  · cases f <;> cases cam0 <;>
      simp [Scanner.fsmDeactivateTrans, Scanner.onLeaveActive, Scanner._disableScan]
  · simp [Scanner.fsmActivate, activateCondition, fsmBackgroundScanField]

/-- C8: Scanner.start with a camera argument while the page is visible:
from every machine state the call succeeds with no error and ends active
with the given camera recorded, the device acquired, and the active event
emitted — preceded by an inactive emission exactly when the machine had
to leave active first (the restart-on-busy stop releasing the device). -/
theorem start_restart_on_busy (s : ScannerState) (cam : Camera) :
    (Scanner.start "visible" (some cam) s).2 = none ∧
    (Scanner.start "visible" (some cam) s).1.fsm = FsmState.active ∧
    (Scanner.start "visible" (some cam) s).1.camera = some cam ∧
    (Scanner.start "visible" (some cam) s).1.deviceOn = true ∧
    (Scanner.start "visible" (some cam) s).1.events =
      s.events ++
        (if s.fsm = FsmState.active then ["inactive", "active"] else ["active"]) := by
  obtain ⟨f, cam0, c0, b0, pr, d0, ev⟩ := s
  cases f <;> cases cam0 <;> cases c0 <;>
    simp [Scanner.start, Scanner.fsmStartTrans, Scanner.fsmStopTrans, Scanner.fsmActivate,
      Scanner._enableScan, Scanner.onLeaveActive, Scanner._disableScan,
      activateCondition, fsmBackgroundScanField, ScanProvider.start, ScanProvider.stop]

/-- C9: setting the continuous flag while the machine is in any state
other than active stops the ScanProvider, for both flag values alike;
only setting it while the machine is active starts the ScanProvider. -/
theorem continuous_setter_outside_active (s : ScannerState) (c : Bool)
    (h : s.fsm ≠ FsmState.active) :
    (Scanner.setContinuous c s).provider = ScanProvider.stop s.provider ∧
    (Scanner.setContinuous c s).provider.prov.active = false ∧
    (Scanner.setContinuous c s).continuous = c ∧
    (Scanner.setContinuous true { s with fsm := FsmState.active }).provider =
      ScanProvider.start s.provider := by
  simp [Scanner.setContinuous, ScanProvider.start, ScanProvider.stop, h]

/-- Witness for continuous_setter_outside_active: setting continuous to
true on a stopped scanner stops the provider. -/
theorem continuous_setter_outside_active_witness :
    (Scanner.setContinuous true (mkScanner false true false 1 5000)).provider =
      ScanProvider.stop (mkScanner false true false 1 5000).provider ∧
    (Scanner.setContinuous true (mkScanner false true false 1 5000)).provider.prov.active =
      false ∧
    (Scanner.setContinuous true (mkScanner false true false 1 5000)).continuous = true ∧
    (Scanner.setContinuous true
        { mkScanner false true false 1 5000 with fsm := FsmState.active }).provider =
      ScanProvider.start (mkScanner false true false 1 5000).provider :=
  continuous_setter_outside_active (mkScanner false true false 1 5000) true (by decide)

/-- A tick inside the refractory window whose analysis repeats the stored
content emits nothing, whatever the frame counter holds. -/
lemma tick_suppressed (p r d fc t : Nat) (ci : Bool) (c cv : String) (ht : t < d) :
    (tickStep ⟨p, ci, r, fc, some c, true, some d⟩ ⟨t, some ⟨c, cv⟩⟩).1 = none := by
  obtain ⟨fc2, h⟩ := suppress_phase p r d ci c [⟨t, some ⟨c, cv⟩⟩] fc
    (by
      intro u hu
      simp at hu
      subst hu
      exact ⟨ht, cv, rfl⟩)
  have h2 := congrArg Prod.snd h
  simp only [runTicksTrace_cons, runTicksTrace, List.map_cons, List.map_nil] at h2
  simpa using h2

/-- C10: stopping and then restarting the ScanProvider preserves the
dedup state and the throttle counter — lastResult, the pending refractory
timeout and the frame counter come back unchanged, only the running flag
moves — so a content emitted just before the stop is still suppressed
after the restart while its refractory timeout is pending, and the
counter resumes from its pre-stop value. -/
theorem stop_start_preserve_dedup (s : SchedState) (c cv : String) (d t : Nat)
    (hlast : s.prov.lastResult = some c) (hdl : s.prov.refractoryDeadline = some d)
    (ht : t < d) :
    (ScanProvider.start (ScanProvider.stop s)).prov.lastResult = some c ∧
    (ScanProvider.start (ScanProvider.stop s)).prov.refractoryDeadline = some d ∧
    (ScanProvider.start (ScanProvider.stop s)).prov.frameCount = s.prov.frameCount ∧
    (ScanProvider.start (ScanProvider.stop s)).prov.active = true ∧
    (tickStep (ScanProvider.start (ScanProvider.stop s)).prov ⟨t, some ⟨c, cv⟩⟩).1 =
      none := by
  obtain ⟨⟨p, ci0, r, fc, lr, ac, dl⟩, lp⟩ := s
  simp only at hlast hdl
  subst hlast hdl
  exact ⟨rfl, rfl, rfl, rfl, tick_suppressed p r d fc t ci0 c cv ht⟩

/-- Witness for stop_start_preserve_dedup at a concrete scheduler that
has just emitted Q with its refractory timeout pending. -/
theorem stop_start_preserve_dedup_witness :
    (ScanProvider.start (ScanProvider.stop ⟨⟨2, false, 100, 1, some "Q", true, some 50⟩, 1⟩)).prov.lastResult =
      some "Q" ∧
    (ScanProvider.start (ScanProvider.stop ⟨⟨2, false, 100, 1, some "Q", true, some 50⟩, 1⟩)).prov.refractoryDeadline =
      some 50 ∧
    (ScanProvider.start (ScanProvider.stop ⟨⟨2, false, 100, 1, some "Q", true, some 50⟩, 1⟩)).prov.frameCount =
      (⟨⟨2, false, 100, 1, some "Q", true, some 50⟩, 1⟩ : SchedState).prov.frameCount ∧
    (ScanProvider.start (ScanProvider.stop ⟨⟨2, false, 100, 1, some "Q", true, some 50⟩, 1⟩)).prov.active =
      true ∧
    (tickStep (ScanProvider.start (ScanProvider.stop ⟨⟨2, false, 100, 1, some "Q", true, some 50⟩, 1⟩)).prov
        ⟨10, some ⟨"Q", "K"⟩⟩).1 = none :=
  stop_start_preserve_dedup ⟨⟨2, false, 100, 1, some "Q", true, some 50⟩, 1⟩ "Q" "K" 50 10
    rfl rfl (by decide)
